import Mathlib

/-!
Shallow embedding of the pepe HTTP load generator's core
(src/cache.rs, src/ui.rs, src/main.rs, src/request.rs, src/response.rs),
with theorems settling the specification claims about it.

Conventions of the embedding:
* machine integers (`u64`, `u128`, `usize`) become `Nat`; none of the
  modelled quantities can overflow in a run (counts are bounded by the
  request number, durations by the timeout), so no explicit `% 2^w` is
  needed;
* `std::time::Duration` values are carried as their millisecond value
  (`Nat`), which is the only way the aggregator reads them
  (`duration.as_millis()`);
* Rust `Option`/`Result` become `Option`/`Except`;
* a Rust panic is modelled as `Option.none` of the function's result;
* HTTP header maps become association lists `List (String × String)`;
  `HeaderMap::get` is a first-match, case-insensitive lookup;
* the floating-point percentile index `(p/100 × (len−1)).round()` is
  computed exactly over the integers as `(p*(len−1) + 50) / 100`
  (round-half-away-from-zero on non-negative values, as `f64::round`);
* the wall clock read by the aggregator (`self.elapsed.elapsed()`) is
  passed in explicitly as `elapsedSecs`.
-/

namespace Pepe

/-! ## Cache model (src/cache.rs) -/

/-- `CacheStatus` — src/cache.rs lines 18–28. -/
inductive CacheStatus where
  | Hit
  | Miss
  | Stale
  | Expired
  | Revalidated
  | Bypass
  | Dynamic
  | Error
  | Unknown
deriving DecidableEq, Repr

/-- `CacheCategory` — src/cache.rs lines 34–38. -/
inductive CacheCategory where
  | Hit
  | Miss
  | Unknown
deriving DecidableEq, Repr

/-- `CacheCategory::from_cache_status` — src/cache.rs lines 41–50. -/
def CacheCategory.from_cache_status (status : CacheStatus) : CacheCategory :=
  match status with
  | CacheStatus.Hit | CacheStatus.Revalidated | CacheStatus.Stale => CacheCategory.Hit
  | CacheStatus.Miss | CacheStatus.Expired | CacheStatus.Bypass
  | CacheStatus.Dynamic => CacheCategory.Miss
  | CacheStatus.Error | CacheStatus.Unknown => CacheCategory.Unknown

/-- ASCII lowering of one character, as it acts on the visible-ASCII strings
`CacheStatus::from_str` ever receives (beyond ASCII, Rust's
`str::to_lowercase` agrees with this on the cache-status keywords). -/
def asciiLowerChar (c : Char) : Char :=
  if 'A' ≤ c ∧ c ≤ 'Z' then Char.ofNat (c.toNat + 32) else c

/-- Lowercasing a string, char by char. -/
def asciiLower (s : String) : String :=
  String.mk (s.data.map asciiLowerChar)

/-- `CacheStatus::from_str` — src/cache.rs lines 55–67: case-insensitive
keyword match, anything else is `Unknown`. -/
def CacheStatus.fromStr (status : String) : CacheStatus :=
  match asciiLower status with
  | "hit" => CacheStatus.Hit
  | "miss" => CacheStatus.Miss
  | "stale" => CacheStatus.Stale
  | "expired" => CacheStatus.Expired
  | "revalidated" => CacheStatus.Revalidated
  | "bypass" => CacheStatus.Bypass
  | "dynamic" => CacheStatus.Dynamic
  | "error" => CacheStatus.Error
  | _ => CacheStatus.Unknown

/-- `CACHE_HEADERS` — src/cache.rs lines 4–12: the fixed precedence list. -/
def CACHE_HEADERS : List String :=
  ["x-cache", "x-cache-status", "cf-cache-status", "x-cache-lookup",
   "x-cdn-cache-status", "x-backend-cache-status", "x-vercel-cache"]

/-- A response header map, as an ordered association list of
(name, value) pairs; values model the raw `HeaderValue` bytes, a char of
code ≥ 128 standing for the non-ASCII byte of that value. -/
def HeaderMap : Type := List (String × String)

/-- `HeaderMap::get` (http crate): first entry whose name matches
case-insensitively (stored names are normalized to lowercase). -/
def headerGet (headers : HeaderMap) (name : String) : Option String :=
  (headers.find? (fun p => asciiLower p.1 == name)).map Prod.snd

/-- One byte of a `HeaderValue` is visible ASCII (http crate
`is_visible_ascii`): in `32..127`, or tab. -/
def isVisibleAscii (c : Char) : Bool :=
  (32 ≤ c.toNat && c.toNat < 127) || c.toNat == 9

/-- `HeaderValue::to_str` (http crate): succeeds iff every byte is
visible ASCII. -/
def headerValueToStr (v : String) : Option String :=
  if v.data.all isVisibleAscii then some v else none

/-- `CacheStatus::parse_headers` — src/cache.rs lines 76–88: walk the
precedence list; a present header whose value converts with `to_str`
returns immediately; a present header whose value does not convert is
skipped and the loop continues. -/
def CacheStatus.parse_headers (headers : HeaderMap) : Option CacheStatus :=
  go CACHE_HEADERS headers
where
  /-- The `for header in CACHE_HEADERS.iter()` loop. -/
  go : List String → HeaderMap → Option CacheStatus
  | [], _ => none
  | h :: rest, headers =>
    match headerGet headers h with
    | some v =>
      match headerValueToStr v with
      | some s => some (CacheStatus.fromStr s)
      | none => go rest headers
    | none => go rest headers

/-- The classifier exactly as the claim words it: the first *present*
header in the precedence list decides, and its value is parsed
(unrecognized values parse to `Unknown`); no present header ⇒ `none`.
This is the spec-side definition used to compare against
`CacheStatus.parse_headers`. -/
def claimClassifier (headers : HeaderMap) : Option CacheStatus :=
  (CACHE_HEADERS.findSome? (fun h => headerGet headers h)).map CacheStatus.fromStr

/-- The amended description: first header in the precedence list that is
present *and* whose value is readable as visible ASCII decides;
unreadable values are skipped. -/
def amendedClassifier (headers : HeaderMap) : Option CacheStatus :=
  (CACHE_HEADERS.findSome? (fun h => (headerGet headers h).bind headerValueToStr)).map
    CacheStatus.fromStr

/-! ## Completion records and the metrics aggregator (src/ui.rs) -/

/-- `ResponseStats` — src/main.rs lines 166–173.  `duration` is carried
as its millisecond value, the only reading the aggregator performs. -/
structure ResponseStats where
  durationMs : Nat
  status_code : Option Nat
  content_length : Option Nat
  partial_response : Option String
  dns_times : Option (Nat × Nat)
  cache_status : Option CacheStatus
deriving DecidableEq, Repr

/-- `Sent` — src/main.rs lines 176–178. -/
structure Sent where
  count : Nat
deriving DecidableEq, Repr

/-- `StatusCode::is_success` (http crate): the 2xx range. -/
def isSuccessStatus (code : Nat) : Bool :=
  200 ≤ code && code < 300

/-- `Stats` — src/ui.rs lines 36–53. -/
structure Stats where
  count : Nat
  success : Nat
  failed : Nat
  timeouts : Nat
  sent : Nat
  min : Nat
  max : Nat
  avg : Nat
  std_dev : Nat
  rps : Nat
  data : Nat
  total_dns_lookup : List Nat
  total_dns_resolution : List Nat
  avg_dns_lookup : Nat
  avg_dns_resolution : Nat
  cache_categories : CacheCategory → Nat

/-- `Stats::default()`. -/
def Stats.default : Stats :=
  { count := 0, success := 0, failed := 0, timeouts := 0, sent := 0,
    min := 0, max := 0, avg := 0, std_dev := 0, rps := 0, data := 0,
    total_dns_lookup := [], total_dns_resolution := [],
    avg_dns_lookup := 0, avg_dns_resolution := 0,
    cache_categories := fun _ => 0 }

/-- The aggregator-owned part of `Dashboard` — src/ui.rs lines 54–65
(rendering-only fields `label_storage`, `bar_chart_data`, `args`,
`elapsed`, `final_duration` omitted; `elapsed` is passed to
`updateStats` as the current clock reading). -/
structure Dashboard where
  histogram : List (Option Nat × Nat)
  requests : List ResponseStats
  status_codes : Nat → Nat
  stats : Stats
  data_transfer : Nat

/-- `Dashboard::new` — src/ui.rs lines 144–157. -/
def Dashboard.new : Dashboard :=
  { histogram := [], requests := [], status_codes := fun _ => 0,
    stats := Stats.default, data_transfer := 0 }

/-- ui.rs 70–73: histogram push. -/
def pushHistogram (d : Dashboard) (stat : ResponseStats) : Dashboard :=
  { d with histogram := d.histogram ++ [(stat.status_code, stat.durationMs)] }

/-- ui.rs 76–79: rolling log push, capacity 100, oldest removed first. -/
def pushRollingLog (d : Dashboard) (stat : ResponseStats) : Dashboard :=
  { d with requests :=
      (if d.requests.length == 100 then d.requests.drop 1 else d.requests) ++ [stat] }

/-- ui.rs 82–88: cache category bucket. -/
def bumpCacheCategories (d : Dashboard) (stat : ResponseStats) : Dashboard :=
  match stat.cache_status with
  | some cs =>
    { d with stats := { d.stats with cache_categories := fun c =>
        if c = CacheCategory.from_cache_status cs then d.stats.cache_categories c + 1
        else d.stats.cache_categories c } }
  | none => d

/-- ui.rs 90–103: DNS sample lists and running means. -/
def updateDnsAverages (d : Dashboard) (stat : ResponseStats) : Dashboard :=
  match stat.dns_times with
  | some (lk, rs) =>
    let tl := d.stats.total_dns_lookup ++ [lk]
    let tr := d.stats.total_dns_resolution ++ [rs]
    { d with stats := { d.stats with
        total_dns_lookup := tl, total_dns_resolution := tr,
        avg_dns_lookup := tl.sum / tl.length,
        avg_dns_resolution := tr.sum / tr.length } }
  | none => d

/-- ui.rs 105–111: min / max update. -/
def updateMinMax (d : Dashboard) (stat : ResponseStats) : Dashboard :=
  let d :=
    if d.stats.min == 0 || stat.durationMs < d.stats.min then
      { d with stats := { d.stats with min := stat.durationMs } }
    else d
  if stat.durationMs > d.stats.max then
    { d with stats := { d.stats with max := stat.durationMs } }
  else d

/-- ui.rs 113–119: rps and data rate (integer part of the f64 quotients;
at elapsed 0 the rps branch yields 0 and the data quotient is NaN→0 for
0/0 and +∞→u64::MAX otherwise, per Rust `as u64` saturation). -/
def updateRates (d : Dashboard) (elapsedSecs : Nat) : Dashboard :=
  let d := { d with stats := { d.stats with rps :=
      if elapsedSecs > 0 then d.stats.count / elapsedSecs else 0 } }
  { d with stats := { d.stats with data :=
      if elapsedSecs > 0 then d.data_transfer / elapsedSecs
      else if d.data_transfer = 0 then 0 else 2 ^ 64 - 1 } }

/-- ui.rs 122–141: outcome classification.  The timeout branch (lines
122–127) pushes `stat` into `self.requests` a *second* time — the first,
capped push happened at lines 76–79 — then returns; otherwise the status
bucket, cumulative bytes and success/failed counters are updated. -/
def classifyOutcome (d : Dashboard) (stat : ResponseStats) : Dashboard :=
  match stat.status_code with
  | none =>
    { d with
      stats := { d.stats with timeouts := d.stats.timeouts + 1, count := d.stats.count + 1 },
      requests := d.requests ++ [stat] }
  | some status_code =>
    let d := { d with
      status_codes := fun c =>
        if c = status_code then d.status_codes c + 1 else d.status_codes c,
      data_transfer := d.data_transfer + stat.content_length.getD 0 }
    let d := { d with stats := { d.stats with count := d.stats.count + 1 } }
    if isSuccessStatus status_code then
      { d with stats := { d.stats with success := d.stats.success + 1 } }
    else
      { d with stats := { d.stats with failed := d.stats.failed + 1 } }

/-- `Dashboard::update_stats` — src/ui.rs lines 68–142, as the sequence
of its statement blocks.  `elapsedSecs` is the value of
`self.elapsed.elapsed().as_secs()` at this tick. -/
def updateStats (d : Dashboard) (elapsedSecs : Nat) (stat : ResponseStats) : Dashboard :=
  classifyOutcome
    (updateRates
      (updateMinMax
        (updateDnsAverages
          (bumpCacheCategories
            (pushRollingLog
              (pushHistogram d stat) stat) stat) stat) stat) elapsedSecs) stat

/-- `Dashboard::update_sent` — src/ui.rs lines 201–203. -/
def updateSent (d : Dashboard) (sent : Sent) : Dashboard :=
  { d with stats := { d.stats with sent := d.stats.sent + sent.count } }

/-! ## Percentile computation (src/ui.rs `render_latency_distribution`) -/

/-- The fixed percentile set — src/ui.rs line 296. -/
def percentiles : List Nat := [0, 10, 25, 50, 75, 90, 95, 99, 100]

/-- Round-half-away-from-zero of `x / 100` for non-negative `x`
(`f64::round` of the exact quotient), as integer arithmetic. -/
def roundDiv100 (x : Nat) : Nat :=
  (x + 50) / 100

/-- The index selected for percentile `p` over a sorted list of length
`len` — src/ui.rs lines 305–312: `0` for P0, `len − 1` for P100,
otherwise `round(p/100 × (len−1))` capped by `min` at `len − 1`. -/
def percentileIdx (p len : Nat) : Nat :=
  if p = 0 then 0
  else if p = 100 then len - 1
  else Nat.min (roundDiv100 (p * (len - 1))) (len - 1)

/-- The index the claim describes, uniformly for every `p`:
`round(p/100 × (len−1))` clamped to `[0, len−1]` (the lower clamp is
vacuous over `Nat`). -/
def claimIdx (p len : Nat) : Nat :=
  Nat.min (roundDiv100 (p * (len - 1))) (len - 1)

/-- `latencies.sort_unstable()` — ascending sort (the sorted permutation
of a list of naturals is unique, so any sorting algorithm embeds it). -/
def sortLatencies (latencies : List Nat) : List Nat :=
  latencies.insertionSort (fun a b => a ≤ b)

/-- The value reported for percentile `p` — src/ui.rs lines 314–319:
`sorted_latencies[idx]`. -/
def reportedPercentile (latencies : List Nat) (p : Nat) : Nat :=
  (sortLatencies latencies).getD (percentileIdx p latencies.length) 0

/-! ## HTTP method parsing and body attachment (src/main.rs, src/request.rs) -/

/-- `http::Method`: the standard methods plus extension tokens. -/
inductive Method where
  | GET
  | POST
  | PUT
  | HEAD
  | PATCH
  | TRACE
  | DELETE
  | OPTIONS
  | CONNECT
  | extension (s : String)
deriving DecidableEq, Repr

/-- A valid HTTP-method byte (http crate `METHOD_CHARS` table): the
RFC 7230 token characters. -/
def isMethodChar (c : Char) : Bool :=
  ('0' ≤ c && c ≤ '9') || ('a' ≤ c && c ≤ 'z') || ('A' ≤ c && c ≤ 'Z') ||
  c == '!' || c == '#' || c == '$' || c == '%' || c == '&' || c == '\'' ||
  c == '*' || c == '+' || c == '-' || c == '.' || c == '^' || c == '_' ||
  c == '|' || c == '~' || c.toNat == 96

/-- `Method::from_bytes` (http crate, as used at src/main.rs line 380 and
src/request.rs line 52): the known method names map to their variants;
any other non-empty all-token-character string is an extension method;
anything else is an error (`none`). -/
def methodFromBytes (s : String) : Option Method :=
  if s = "GET" then some Method.GET
  else if s = "PUT" then some Method.PUT
  else if s = "POST" then some Method.POST
  else if s = "HEAD" then some Method.HEAD
  else if s = "PATCH" then some Method.PATCH
  else if s = "TRACE" then some Method.TRACE
  else if s = "DELETE" then some Method.DELETE
  else if s = "OPTIONS" then some Method.OPTIONS
  else if s = "CONNECT" then some Method.CONNECT
  else if s ≠ "" ∧ s.data.all isMethodChar then some (Method.extension s)
  else none

/-- The method used by a dispatched unit — src/main.rs lines 380–381:
`Method::from_bytes(..).unwrap_or(Method::GET)`. -/
def dispatchMethod (s : String) : Method :=
  (methodFromBytes s).getD Method.GET

/-- The body attached to the issued request — src/main.rs lines 391–399:
attached iff `method == Method::POST && body.is_some()`; every other
method (PUT included) issues the request without a body. -/
def attachBody (method : Method) (body : Option String) : Option String :=
  if method = Method.POST ∧ body.isSome then body else none

/-- The family of methods the claim calls "POST/PUT-class", following the
spec's words; used only to compare against `attachBody`. -/
def isPostPutClass (method : Method) : Bool :=
  method == Method.POST || method == Method.PUT

/-! ## Body preview (src/main.rs lines 413–419, src/response.rs lines 42–48) -/

/-- `char::is_whitespace` (Rust): the Unicode `White_Space` property. -/
def isRustWhitespace (c : Char) : Bool :=
  (9 ≤ c.toNat && c.toNat ≤ 13) || c.toNat == 32 || c.toNat == 133 ||
  c.toNat == 160 || c.toNat == 5760 || (8192 ≤ c.toNat && c.toNat ≤ 8202) ||
  c.toNat == 8232 || c.toNat == 8233 || c.toNat == 8239 || c.toNat == 8287 ||
  c.toNat == 12288

/-- `str::trim` — drop whitespace from both ends. -/
def rustTrim (s : List Char) : List Char :=
  ((s.dropWhile isRustWhitespace).reverse.dropWhile isRustWhitespace).reverse

/-- `.replace("\n", " ").replace("\r", " ")` — single-char replacement. -/
def collapseNewlines (s : List Char) : List Char :=
  s.map (fun c => if c = '\n' ∨ c = '\r' then ' ' else c)

/-- UTF-8 byte length of a character list (`str::len` counts bytes). -/
def utf8Len (s : List Char) : Nat :=
  (s.map Char.utf8Size).sum

/-- `text[..n]` on a Rust `&str`: the prefix of exactly `n` bytes if `n`
falls on a character boundary, a panic (`none`) otherwise. -/
def byteSlice : List Char → Nat → Option (List Char)
  | _, 0 => some []
  | [], _ + 1 => none
  | c :: cs, n + 1 =>
    if c.utf8Size ≤ n + 1 then (byteSlice cs (n + 1 - c.utf8Size)).map (c :: ·)
    else none

/-- The body-preview construction — src/main.rs lines 414–419 (identical
at src/response.rs lines 43–48): trim, collapse newlines, then truncate
to 100 *bytes* when longer; the byte slice panics (`none`) when byte 100
is not a character boundary. -/
def bodyPreview (body : String) : Option String :=
  let text := collapseNewlines (rustTrim body.data)
  if utf8Len text > 100 then (byteSlice text 100).map String.mk
  else some (String.mk text)

/-! ## DNS timing probe (src/main.rs `resolve_dns`) -/

/-- `PepeError` — src/main.rs lines 182–188. -/
inductive PepeError where
  | HeaderParseError (msg : String)
  | IoError (msg : String)
  | RequestError (msg : String)
  | UrlParseError (msg : String)
  | HostParseError
deriving DecidableEq, Repr

/-- The outcome of one unit's interaction with the resolver, supplied by
the environment: what `Uri::from_str` and `tokio::net::lookup_host`
return, and the two spans measured around them (in ms). -/
structure DnsOracle where
  /-- `Uri::from_str(url)`: `none` models a parse error. -/
  parsedHost : Except String (Option String)
  /-- `tokio::net::lookup_host`: the addresses, or the I/O error text. -/
  lookupResult : Except String (List String)
  lookupTimeMs : Nat
  resolutionTimeMs : Nat
deriving Repr

/-- `resolve_dns` — src/main.rs lines 205–227: URL parse error ⇒
`UrlParseError`; URL without a host ⇒ `HostParseError`; lookup failure ⇒
`IoError`; otherwise the two measured spans. -/
def resolve_dns (o : DnsOracle) : Except PepeError (Nat × Nat) :=
  match o.parsedHost with
  | Except.error e => Except.error (PepeError.UrlParseError e)
  | Except.ok none => Except.error PepeError.HostParseError
  | Except.ok (some _) =>
    match o.lookupResult with
    | Except.error e => Except.error (PepeError.IoError e)
    | Except.ok _ => Except.ok (o.lookupTimeMs, o.resolutionTimeMs)

/-- `resolve_dns(&url).await.unwrap_or_default()` — src/main.rs lines
387–388: a failed probe yields the zero-valued pair. -/
def dnsTimesUsed (o : DnsOracle) : Nat × Nat :=
  match resolve_dns o with
  | Except.ok t => t
  | Except.error _ => (0, 0)

/-! ## One dispatched unit of work (src/main.rs lines 367–452) -/

/-- The observable steps of one unit, in program order. -/
inductive UnitEvent where
  /-- `sem.acquire_owned()` — src/main.rs line 370 (in the supervisor,
  before the unit's task is spawned). -/
  | acquirePermit
  /-- `sent_tx.send(Sent { count: 1 })` — src/main.rs line 384. -/
  | sentEvent
  /-- `resolve_dns(&url)` — src/main.rs line 388. -/
  | dnsProbe
  /-- `client.request(method, &url)...send()` — src/main.rs lines
  391–399, carrying the method and the attached body. -/
  | httpRequest (method : Method) (body : Option String)
  /-- `drop(permit)` — src/main.rs line 446 (also reached by unwinding
  when building the record panics). -/
  | releasePermit
  /-- `tx.send(stats)` — src/main.rs line 447. -/
  | completionSent
deriving DecidableEq, Repr

/-- A successful `reqwest::Response`, reduced to the fields the unit
reads: status, `content_length()`, headers, and the body text
(`text().await.unwrap_or_default()`, so a failed body read is already
the empty string). -/
structure HttpOk where
  status : Nat
  contentLength : Option Nat
  headers : HeaderMap
  body : String

/-- A failed request (`reqwest::Error`): `e.status()` is present for
HTTP-level errors, absent for timeouts and transport errors. -/
structure HttpErr where
  status : Option Nat

/-- One unit of work — src/main.rs lines 367–452: acquire permit, emit
the sent event, probe DNS (failures absorbed to `(0,0)`), issue the
request with the parsed method and the POST-only body, parse the cache
status from the response headers (an error response has no headers:
`unwrap_or_default`), build the `ResponseStats`, drop the permit, send
the record.  The result is the completion record (`none` when building
the preview panics, killing the task after the permit unwinds) together
with the unit's event trace.  `elapsedMs` is the measured duration. -/
def runUnit (methodStr : String) (body : Option String) (o : DnsOracle)
    (response : Except HttpErr HttpOk) (elapsedMs : Nat) :
    Option ResponseStats × List UnitEvent :=
  let method := dispatchMethod methodStr
  let events := [UnitEvent.acquirePermit, UnitEvent.sentEvent, UnitEvent.dnsProbe]
  let dns_times := dnsTimesUsed o
  let events := events ++ [UnitEvent.httpRequest method (attachBody method body)]
  let response_headers :=
    match response with
    | Except.ok r => r.headers
    | Except.error _ => []
  let cache_status := CacheStatus.parse_headers response_headers
  match response with
  | Except.ok resp =>
    match bodyPreview resp.body with
    | none =>
      -- the `text[..100]` slice panicked: the permit is dropped by
      -- unwinding, the completion record is never sent
      (none, events ++ [UnitEvent.releasePermit])
    | some truncated_text =>
      (some { durationMs := elapsedMs,
              status_code := some resp.status,
              content_length := resp.contentLength,
              partial_response := some truncated_text,
              dns_times := some dns_times,
              cache_status := cache_status },
       events ++ [UnitEvent.releasePermit, UnitEvent.completionSent])
  | Except.error e =>
    (some { durationMs := elapsedMs,
            status_code := e.status,
            content_length := none,
            partial_response := none,
            dns_times := some dns_times,
            cache_status := cache_status },
     events ++ [UnitEvent.releasePermit, UnitEvent.completionSent])

/-! ## Concrete records used by witnesses and counterexamples -/

/-- A completion record for a timed-out request: `status_code` absent. -/
def recTimeout : ResponseStats :=
  { durationMs := 5, status_code := none, content_length := none,
    partial_response := none, dns_times := none, cache_status := none }

/-- A completion record for a successful request, tagged by `k` so that
distinct arrivals are distinguishable. -/
def recOk (k : Nat) : ResponseStats :=
  { durationMs := k, status_code := some 200, content_length := some 10,
    partial_response := some "ok", dns_times := none, cache_status := none }

/-- A DNS oracle whose URL fails to parse. -/
def oFailDns : DnsOracle :=
  { parsedHost := Except.error "invalid uri", lookupResult := Except.ok [],
    lookupTimeMs := 0, resolutionTimeMs := 0 }

/-- A DNS oracle that succeeds with the given timings. -/
def oOkDns : DnsOracle :=
  { parsedHost := Except.ok (some "example.com"),
    lookupResult := Except.ok ["93.184.216.34"],
    lookupTimeMs := 3, resolutionTimeMs := 1 }

/-- A response body whose trimmed, newline-collapsed text is 102 bytes
long with a two-byte character straddling byte offset 100: 99 × `a`,
then `é` (bytes 99–100), then `b`. -/
def straddlingBody : String :=
  String.mk (List.replicate 99 'a' ++ ['é', 'b'])

/-- A successful 200 response carrying `straddlingBody`. -/
def respStraddling : HttpOk :=
  { status := 200, contentLength := some 102, headers := [], body := straddlingBody }

/-! ## Helper lemmas -/

/-- The counters and the rolling log are untouched by the display steps
preceding the outcome classification. -/
theorem displaySteps_preserve (d : Dashboard) (e : Nat) (s : ResponseStats) :
    let d' := updateRates (updateMinMax (updateDnsAverages
        (bumpCacheCategories (pushRollingLog (pushHistogram d s) s) s) s) s) e
    d'.stats.count = d.stats.count ∧ d'.stats.success = d.stats.success ∧
    d'.stats.failed = d.stats.failed ∧ d'.stats.timeouts = d.stats.timeouts ∧
    d'.requests =
      (if d.requests.length == 100 then d.requests.drop 1 else d.requests) ++ [s] ∧
    d'.data_transfer = d.data_transfer := by
  rcases s with ⟨dur, sc, cl, pr, _ | ⟨lk, rs⟩, _ | cs⟩ <;>
    (simp only [updateRates, updateMinMax, updateDnsAverages, bumpCacheCategories,
      pushRollingLog, pushHistogram] ;
     split_ifs <;> simp)

/-- The counters after one `update_stats` call, in every case. -/
theorem updateStats_counter_step (d : Dashboard) (e : Nat) (s : ResponseStats) :
    (updateStats d e s).stats.count = d.stats.count + 1 ∧
    (s.status_code = none →
      (updateStats d e s).stats.timeouts = d.stats.timeouts + 1 ∧
      (updateStats d e s).stats.success = d.stats.success ∧
      (updateStats d e s).stats.failed = d.stats.failed) ∧
    (∀ c, s.status_code = some c → isSuccessStatus c = true →
      (updateStats d e s).stats.success = d.stats.success + 1 ∧
      (updateStats d e s).stats.failed = d.stats.failed ∧
      (updateStats d e s).stats.timeouts = d.stats.timeouts) ∧
    (∀ c, s.status_code = some c → isSuccessStatus c = false →
      (updateStats d e s).stats.failed = d.stats.failed + 1 ∧
      (updateStats d e s).stats.success = d.stats.success ∧
      (updateStats d e s).stats.timeouts = d.stats.timeouts) := by
  obtain ⟨h1, h2, h3, h4, -, -⟩ := displaySteps_preserve d e s
  unfold updateStats
  cases hsc : s.status_code with
  | none =>
    refine ⟨?_, fun _ => ⟨?_, ?_, ?_⟩, fun c hc => by simp [hsc] at hc,
      fun c hc => by simp [hsc] at hc⟩ <;>
      simp [classifyOutcome, hsc, h1, h2, h3, h4]
  | some c =>
    refine ⟨?_, fun h => by simp [hsc] at h, ?_, ?_⟩
    · by_cases hs : isSuccessStatus c = true <;>
        simp [classifyOutcome, hsc, hs, h1, h2, h3, h4]
    · rintro c' hc' hsucc
      obtain rfl : c = c' := Option.some.inj hc'
      refine ⟨?_, ?_, ?_⟩ <;> simp [classifyOutcome, hsc, hsucc, h1, h2, h3, h4]
    · rintro c' hc' hfail
      obtain rfl : c = c' := Option.some.inj hc'
      refine ⟨?_, ?_, ?_⟩ <;> simp [classifyOutcome, hsc, hfail, h1, h2, h3, h4]

/-- One `update_stats` call adds exactly one to
`success + failed + timeouts`. -/
theorem updateStats_sum_step (d : Dashboard) (e : Nat) (s : ResponseStats) :
    (updateStats d e s).stats.success + (updateStats d e s).stats.failed +
      (updateStats d e s).stats.timeouts =
    d.stats.success + d.stats.failed + d.stats.timeouts + 1 := by
  obtain ⟨-, h2, h3, h4⟩ := updateStats_counter_step d e s
  cases hsc : s.status_code with
  | none => obtain ⟨a, b, c⟩ := h2 hsc ; omega
  | some c =>
    by_cases hs : isSuccessStatus c = true
    · obtain ⟨a, b, c⟩ := h3 c hsc hs ; omega
    · obtain ⟨a, b, c⟩ := h4 c hsc (by simpa using hs) ; omega

/-- `count` over a fold of `update_stats` calls. -/
theorem foldl_updateStats_count (e : Nat) (recs : List ResponseStats) :
    ∀ d : Dashboard,
      ((recs.foldl (fun acc r => updateStats acc e r) d).stats.count =
        d.stats.count + recs.length) := by
  induction recs with
  | nil => intro d ; simp
  | cons r rest ih =>
    intro d
    have hstep := (updateStats_counter_step d e r).1
    simp only [List.foldl_cons, List.length_cons]
    rw [ih (updateStats d e r), hstep]
    omega

/-- `success + failed + timeouts` over a fold of `update_stats` calls. -/
theorem foldl_updateStats_sum (e : Nat) (recs : List ResponseStats) :
    ∀ d : Dashboard,
      (let d' := recs.foldl (fun acc r => updateStats acc e r) d
       d'.stats.success + d'.stats.failed + d'.stats.timeouts =
         d.stats.success + d.stats.failed + d.stats.timeouts + recs.length) := by
  induction recs with
  | nil => intro d ; simp
  | cons r rest ih =>
    intro d
    have hstep := updateStats_sum_step d e r
    simp only [List.foldl_cons, List.length_cons]
    have := ih (updateStats d e r)
    simp only [] at this ⊢
    omega

/-! ## Claim theorems -/

/-- C1: For every completion record processed by the aggregator, `count`
increases by exactly 1 and exactly one of `success`, `failed`,
`timeouts` increases by 1 — `timeouts` when `status_code` is absent,
`success` when the status is in the 2xx range, `failed` otherwise — so
the invariant `count = success + failed + timeouts` is preserved by
every update, and after an uninterrupted run of `N` records starting
from the fresh dashboard, `count = N`. -/
theorem update_stats_counter_invariant (d : Dashboard) (e : Nat) (s : ResponseStats)
    (hinv : d.stats.count = d.stats.success + d.stats.failed + d.stats.timeouts) :
    ((updateStats d e s).stats.count = d.stats.count + 1) ∧
    (s.status_code = none →
      (updateStats d e s).stats.timeouts = d.stats.timeouts + 1 ∧
      (updateStats d e s).stats.success = d.stats.success ∧
      (updateStats d e s).stats.failed = d.stats.failed) ∧
    (∀ c, s.status_code = some c → isSuccessStatus c = true →
      (updateStats d e s).stats.success = d.stats.success + 1 ∧
      (updateStats d e s).stats.failed = d.stats.failed ∧
      (updateStats d e s).stats.timeouts = d.stats.timeouts) ∧
    (∀ c, s.status_code = some c → isSuccessStatus c = false →
      (updateStats d e s).stats.failed = d.stats.failed + 1 ∧
      (updateStats d e s).stats.success = d.stats.success ∧
      (updateStats d e s).stats.timeouts = d.stats.timeouts) ∧
    ((updateStats d e s).stats.count =
      (updateStats d e s).stats.success + (updateStats d e s).stats.failed +
        (updateStats d e s).stats.timeouts) ∧
    (∀ recs : List ResponseStats,
      (recs.foldl (fun acc r => updateStats acc e r) Dashboard.new).stats.count =
        recs.length ∧
      (recs.foldl (fun acc r => updateStats acc e r) Dashboard.new).stats.count =
        (recs.foldl (fun acc r => updateStats acc e r) Dashboard.new).stats.success +
        (recs.foldl (fun acc r => updateStats acc e r) Dashboard.new).stats.failed +
        (recs.foldl (fun acc r => updateStats acc e r) Dashboard.new).stats.timeouts) := by
  obtain ⟨h1, h2, h3, h4⟩ := updateStats_counter_step d e s
  have hsum := updateStats_sum_step d e s
  refine ⟨h1, h2, h3, h4, by omega, ?_⟩
  intro recs
  have hc := foldl_updateStats_count e recs Dashboard.new
  have hs := foldl_updateStats_sum e recs Dashboard.new
  simp only [] at hc hs
  constructor
  · simpa [Dashboard.new, Stats.default] using hc
  · simp only [Dashboard.new, Stats.default] at hc hs ⊢
    omega

/-- Closed instance of `update_stats_counter_invariant`: processing one
timeout record from the fresh dashboard bumps `count` to 1 and
`timeouts` to 1, preserving the invariant. -/
theorem update_stats_counter_invariant_witness :
    (updateStats Dashboard.new 1 recTimeout).stats.count = Dashboard.new.stats.count + 1 ∧
    (updateStats Dashboard.new 1 recTimeout).stats.timeouts =
      Dashboard.new.stats.timeouts + 1 ∧
    (updateStats Dashboard.new 1 recTimeout).stats.count =
      (updateStats Dashboard.new 1 recTimeout).stats.success +
      (updateStats Dashboard.new 1 recTimeout).stats.failed +
      (updateStats Dashboard.new 1 recTimeout).stats.timeouts := by
  have h := update_stats_counter_invariant Dashboard.new 1 recTimeout rfl
  exact ⟨h.1, (h.2.1 rfl).1, h.2.2.2.2.1⟩

/-- C5: `CacheCategory::from_cache_status` is total and deterministic —
it is a Lean function on the closed 9-variant `CacheStatus` — and maps
each variant exactly per the fixed table: Hit, Revalidated, Stale ↦ Hit;
Miss, Expired, Bypass, Dynamic ↦ Miss; Error, Unknown ↦ Unknown. -/
theorem from_cache_status_table :
    CacheCategory.from_cache_status CacheStatus.Hit = CacheCategory.Hit ∧
    CacheCategory.from_cache_status CacheStatus.Revalidated = CacheCategory.Hit ∧
    CacheCategory.from_cache_status CacheStatus.Stale = CacheCategory.Hit ∧
    CacheCategory.from_cache_status CacheStatus.Miss = CacheCategory.Miss ∧
    CacheCategory.from_cache_status CacheStatus.Expired = CacheCategory.Miss ∧
    CacheCategory.from_cache_status CacheStatus.Bypass = CacheCategory.Miss ∧
    CacheCategory.from_cache_status CacheStatus.Dynamic = CacheCategory.Miss ∧
    CacheCategory.from_cache_status CacheStatus.Error = CacheCategory.Unknown ∧
    CacheCategory.from_cache_status CacheStatus.Unknown = CacheCategory.Unknown ∧
    (∀ s : CacheStatus,
      CacheCategory.from_cache_status s = CacheCategory.Hit ∨
      CacheCategory.from_cache_status s = CacheCategory.Miss ∨
      CacheCategory.from_cache_status s = CacheCategory.Unknown) := by
  refine ⟨rfl, rfl, rfl, rfl, rfl, rfl, rfl, rfl, rfl, ?_⟩
  intro s ; cases s <;> simp [CacheCategory.from_cache_status]

set_option maxRecDepth 10000 in
/-- C2 (code bug, evaluation): the timeout branch of `update_stats`
(ui.rs line 125) pushes the record into the rolling log a second time,
after the capped push at ui.rs line 79.  A single timeout record
inserted into the fresh dashboard lands in the log twice, and a timeout
record arriving at a log already holding 100 entries leaves 101 — the
claimed `≤ 100`, insert-exactly-once FIFO invariant fails. -/
theorem rolling_log_timeout_double_push :
    (updateStats Dashboard.new 0 recTimeout).requests = [recTimeout, recTimeout] ∧
    ((List.range 100).foldl (fun d k => updateStats d 0 (recOk k))
        Dashboard.new).requests.length = 100 ∧
    (updateStats
        ((List.range 100).foldl (fun d k => updateStats d 0 (recOk k)) Dashboard.new)
        0 recTimeout).requests.length = 101 := by
  refine ⟨by decide, by decide, by decide⟩

/-- C3 counterexample: a unit dispatching method PUT with a present body
issues the request *without* the body (src/main.rs line 391 tests
`method == Method::POST` only), while the claim's "POST/PUT-class"
reading says the body is attached. -/
theorem attach_body_put_counterexample :
    ¬ (((attachBody Method.PUT (some "x")).isSome = true) ↔
       (isPostPutClass Method.PUT = true ∧ (some "x" : Option String).isSome = true)) := by
  decide

/-- C3 (amended): the request body is attached if and only if the method
is exactly POST and a body is present; every other method — PUT included
— issues the request without a body (and when attached, the body is the
descriptor's own). -/
theorem attach_body_iff_post (m : Method) (b : Option String) :
    ((attachBody m b).isSome = true ↔ (m = Method.POST ∧ b.isSome = true)) ∧
    (attachBody m b = none ∨ attachBody m b = b) := by
  unfold attachBody
  split_ifs with h <;> simp_all

/-- C4 counterexample: a response whose first present precedence header
(`x-cache`) carries a non-ASCII byte is skipped by the classifier
(`to_str` fails, cache.rs line 81 falls through), and the *second*
present header decides — the code returns `Miss` where the claim's
first-present-header reading yields `Unknown`. -/
theorem parse_headers_unreadable_value_counterexample :
    CacheStatus.parse_headers [("x-cache", "ÿ"), ("cf-cache-status", "MISS")] =
      some CacheStatus.Miss ∧
    claimClassifier [("x-cache", "ÿ"), ("cf-cache-status", "MISS")] =
      some CacheStatus.Unknown ∧
    CacheStatus.parse_headers [("x-cache", "ÿ"), ("cf-cache-status", "MISS")] ≠
      claimClassifier [("x-cache", "ÿ"), ("cf-cache-status", "MISS")] := by
  refine ⟨by decide, by decide, by decide⟩

/-- The loop of `parse_headers` is first-match-wins over the headers
that are present *and* readable. -/
theorem parse_headers_go_findSome (l : List String) (hdrs : HeaderMap) :
    CacheStatus.parse_headers.go l hdrs =
      (l.findSome? (fun h => (headerGet hdrs h).bind headerValueToStr)).map
        CacheStatus.fromStr := by
  induction l with
  | nil => rfl
  | cons h t ih =>
    cases hg : headerGet hdrs h with
    | none => simp [CacheStatus.parse_headers.go, List.findSome?_cons, hg, ih]
    | some v =>
      cases hv : headerValueToStr v with
      | none => simp [CacheStatus.parse_headers.go, List.findSome?_cons, hg, hv, ih]
      | some s => simp [CacheStatus.parse_headers.go, List.findSome?_cons, hg, hv]

/-- C4 (amended): the classifier scans the fixed precedence list in
order and returns the case-insensitive parse of the first header that is
present *and* whose value is readable as visible ASCII; present headers
with unreadable values are skipped; if no listed header is present (and
readable) it returns `none`.  In particular `x-cache: HIT` together with
`cf-cache-status: MISS` classifies as `Hit`, `x-vercel-cache: STALE` as
`Stale`, and a response with no recognized cache header as `none`. -/
theorem parse_headers_first_readable_match :
    (∀ hdrs : HeaderMap, CacheStatus.parse_headers hdrs = amendedClassifier hdrs) ∧
    CacheStatus.parse_headers [("x-cache", "HIT"), ("cf-cache-status", "MISS")] =
      some CacheStatus.Hit ∧
    CacheStatus.parse_headers [("x-vercel-cache", "STALE")] = some CacheStatus.Stale ∧
    CacheStatus.parse_headers [("content-type", "text/html")] = none := by
  refine ⟨?_, by decide, by decide, by decide⟩
  intro hdrs
  exact parse_headers_go_findSome CACHE_HEADERS hdrs

/-- C6: over the fixed percentile set, the index selected by
`render_latency_distribution` (with its special cases for P0 and P100)
coincides with the claim's uniform formula `round(p/100 × (len−1))`
clamped to `[0, len−1]`; hence for every non-empty latency list the
reported value is the sorted list's element at that index, and on
`[10, 20, 30, 40, 50]` P50 = 30, P0 = 10, P100 = 50. -/
theorem percentile_index_formula :
    (∀ p ∈ percentiles, ∀ len : Nat, percentileIdx p len = claimIdx p len) ∧
    (∀ latencies : List Nat, latencies ≠ [] → ∀ p ∈ percentiles,
      reportedPercentile latencies p =
        (sortLatencies latencies).getD (claimIdx p latencies.length) 0) ∧
    reportedPercentile [10, 20, 30, 40, 50] 50 = 30 ∧
    reportedPercentile [10, 20, 30, 40, 50] 0 = 10 ∧
    reportedPercentile [10, 20, 30, 40, 50] 100 = 50 := by
  have hidx : ∀ p ∈ percentiles, ∀ len : Nat, percentileIdx p len = claimIdx p len := by
    intro p hp len
    have h100 : (100 * (len - 1) + 50) / 100 = len - 1 := by
      rw [Nat.mul_add_div (by norm_num : 0 < 100)] ; rfl
    fin_cases hp <;> simp [percentileIdx, claimIdx, roundDiv100, h100]
  refine ⟨hidx, ?_, by decide, by decide, by decide⟩
  intro lats _ p hp
  unfold reportedPercentile
  rw [hidx p hp]

/-- Closed instance of `percentile_index_formula`: at P50 over a list of
length 5 the two index computations agree. -/
theorem percentile_index_formula_witness :
    percentileIdx 50 5 = claimIdx 50 5 ∧
    reportedPercentile [10, 20, 30, 40, 50] 50 =
      (sortLatencies [10, 20, 30, 40, 50]).getD (claimIdx 50 5) 0 := by
  refine ⟨percentile_index_formula.1 50 (by decide) 5, ?_⟩
  exact percentile_index_formula.2.1 [10, 20, 30, 40, 50] (by decide) 50 (by decide)

/-- The per-unit trace, in every case: the full six-step sequence, or —
when building the record panics in the body-preview slice — the same
sequence stopping after the permit release. -/
theorem runUnit_trace_cases (methodStr : String) (body : Option String) (o : DnsOracle)
    (response : Except HttpErr HttpOk) (elapsedMs : Nat) :
    (runUnit methodStr body o response elapsedMs).2 =
      [UnitEvent.acquirePermit, UnitEvent.sentEvent, UnitEvent.dnsProbe,
       UnitEvent.httpRequest (dispatchMethod methodStr)
         (attachBody (dispatchMethod methodStr) body),
       UnitEvent.releasePermit, UnitEvent.completionSent] ∨
    (runUnit methodStr body o response elapsedMs).2 =
      [UnitEvent.acquirePermit, UnitEvent.sentEvent, UnitEvent.dnsProbe,
       UnitEvent.httpRequest (dispatchMethod methodStr)
         (attachBody (dispatchMethod methodStr) body),
       UnitEvent.releasePermit] := by
  unfold runUnit
  cases response with
  | ok r => cases h : bodyPreview r.body <;> simp [h]
  | error e => simp

/-- C7: the per-unit causal order — permit acquired, then sent event,
then DNS probe, then HTTP request, then permit release, and the
completion record sent (when it is sent at all: a panic while building
the record loses it) only after the release, never in any other order. -/
theorem unit_causal_order (methodStr : String) (body : Option String) (o : DnsOracle)
    (response : Except HttpErr HttpOk) (elapsedMs : Nat) :
    ((runUnit methodStr body o response elapsedMs).2 =
      [UnitEvent.acquirePermit, UnitEvent.sentEvent, UnitEvent.dnsProbe,
       UnitEvent.httpRequest (dispatchMethod methodStr)
         (attachBody (dispatchMethod methodStr) body),
       UnitEvent.releasePermit, UnitEvent.completionSent] ∨
     (runUnit methodStr body o response elapsedMs).2 =
      [UnitEvent.acquirePermit, UnitEvent.sentEvent, UnitEvent.dnsProbe,
       UnitEvent.httpRequest (dispatchMethod methodStr)
         (attachBody (dispatchMethod methodStr) body),
       UnitEvent.releasePermit]) ∧
    ((runUnit methodStr body o response elapsedMs).1.isSome = true →
      (runUnit methodStr body o response elapsedMs).2 =
        [UnitEvent.acquirePermit, UnitEvent.sentEvent, UnitEvent.dnsProbe,
         UnitEvent.httpRequest (dispatchMethod methodStr)
           (attachBody (dispatchMethod methodStr) body),
         UnitEvent.releasePermit, UnitEvent.completionSent]) := by
  refine ⟨runUnit_trace_cases methodStr body o response elapsedMs, ?_⟩
  unfold runUnit
  cases response with
  | ok r => cases h : bodyPreview r.body <;> simp [h]
  | error e => simp

/-- Closed instance of `unit_causal_order` at a concrete error
response: the full six-step trace is produced. -/
theorem unit_causal_order_witness :
    (runUnit "GET" none oOkDns (Except.error { status := none }) 7).2 =
      [UnitEvent.acquirePermit, UnitEvent.sentEvent, UnitEvent.dnsProbe,
       UnitEvent.httpRequest (dispatchMethod "GET")
         (attachBody (dispatchMethod "GET") none),
       UnitEvent.releasePermit, UnitEvent.completionSent] :=
  (unit_causal_order "GET" none oOkDns (Except.error { status := none }) 7).2 rfl

/-- C8: a failing DNS probe is fully absorbed: the unit proceeds with
the zero-valued timing pair, and — but for the recorded timings — its
trace and its completion record are those of the same unit run with any
(in particular any succeeding) DNS oracle: the request is still issued
and the completion record still produced. -/
theorem dns_failure_absorbed (o : DnsOracle) (h : (resolve_dns o).isOk = false) :
    dnsTimesUsed o = (0, 0) ∧
    ∀ (methodStr : String) (body : Option String) (response : Except HttpErr HttpOk)
      (elapsedMs : Nat) (o2 : DnsOracle),
      (runUnit methodStr body o response elapsedMs).2 =
        (runUnit methodStr body o2 response elapsedMs).2 ∧
      (runUnit methodStr body o response elapsedMs).1 =
        ((runUnit methodStr body o2 response elapsedMs).1.map
          (fun s => { s with dns_times := some (0, 0) })) := by
  have h0 : dnsTimesUsed o = (0, 0) := by
    unfold dnsTimesUsed
    cases hr : resolve_dns o with
    | ok t => rw [hr] at h ; simp [Except.isOk, Except.toBool] at h
    | error e => rfl
  refine ⟨h0, ?_⟩
  intro methodStr body response elapsedMs o2
  unfold runUnit
  cases response with
  | ok r => cases hb : bodyPreview r.body <;> simp [hb, h0]
  | error e => simp [h0]

/-- Closed instance of `dns_failure_absorbed`: a URL that fails to parse
yields the zero timing pair and the same trace as a succeeding oracle. -/
theorem dns_failure_absorbed_witness :
    dnsTimesUsed oFailDns = (0, 0) ∧
    (runUnit "GET" none oFailDns (Except.error { status := none }) 7).2 =
      (runUnit "GET" none oOkDns (Except.error { status := none }) 7).2 := by
  have h := dns_failure_absorbed oFailDns (by decide)
  exact ⟨h.1, (h.2 "GET" none (Except.error { status := none }) 7 oOkDns).1⟩

set_option maxRecDepth 4000 in
/-- C9 (code bug, evaluation): the body preview truncation slices the
UTF-8 text at byte offset 100 (`text[..100]`, src/main.rs line 416).  On
a body whose trimmed text is 102 bytes with the two-byte `é` occupying
bytes 99–100, offset 100 is not a character boundary: the slice panics
(`none`), the unit dies after the permit unwinds, and no completion
record is sent — the claimed totality fails. -/
theorem body_preview_byte_slice_panics :
    utf8Len (collapseNewlines (rustTrim straddlingBody.data)) = 102 ∧
    bodyPreview straddlingBody = none ∧
    (runUnit "GET" none oOkDns (Except.ok respStraddling) 5).1 = none ∧
    UnitEvent.completionSent ∉ (runUnit "GET" none oOkDns (Except.ok respStraddling) 5).2 := by
  refine ⟨by decide, by decide, by decide, by decide⟩

/-- C10: a method string that is no valid HTTP method (empty, or holding
a non-token character) does not fail the unit at dispatch time: parsing
falls back to GET (src/main.rs lines 380–381) and the request is issued
as GET. -/
theorem invalid_method_dispatches_get (s : String)
    (h : ¬ (s ≠ "" ∧ s.data.all isMethodChar = true)) :
    methodFromBytes s = none ∧ dispatchMethod s = Method.GET ∧
    ∀ (body : Option String) (o : DnsOracle) (response : Except HttpErr HttpOk)
      (elapsedMs : Nat),
      UnitEvent.httpRequest Method.GET (attachBody Method.GET body) ∈
        (runUnit s body o response elapsedMs).2 := by
  have hnone : methodFromBytes s = none := by
    have n1 : s ≠ "GET" := by rintro rfl ; exact h ⟨by decide, by decide⟩
    have n2 : s ≠ "PUT" := by rintro rfl ; exact h ⟨by decide, by decide⟩
    have n3 : s ≠ "POST" := by rintro rfl ; exact h ⟨by decide, by decide⟩
    have n4 : s ≠ "HEAD" := by rintro rfl ; exact h ⟨by decide, by decide⟩
    have n5 : s ≠ "PATCH" := by rintro rfl ; exact h ⟨by decide, by decide⟩
    have n6 : s ≠ "TRACE" := by rintro rfl ; exact h ⟨by decide, by decide⟩
    have n7 : s ≠ "DELETE" := by rintro rfl ; exact h ⟨by decide, by decide⟩
    have n8 : s ≠ "OPTIONS" := by rintro rfl ; exact h ⟨by decide, by decide⟩
    have n9 : s ≠ "CONNECT" := by rintro rfl ; exact h ⟨by decide, by decide⟩
    unfold methodFromBytes
    rw [if_neg n1, if_neg n2, if_neg n3, if_neg n4, if_neg n5, if_neg n6,
      if_neg n7, if_neg n8, if_neg n9, if_neg h]
  have hget : dispatchMethod s = Method.GET := by simp [dispatchMethod, hnone]
  refine ⟨hnone, hget, ?_⟩
  intro body o response elapsedMs
  rcases runUnit_trace_cases s body o response elapsedMs with ht | ht <;>
    rw [ht, hget] <;> simp

/-- Closed instance of `invalid_method_dispatches_get`: the string
"GE T" holds a space, is rejected by `Method::from_bytes`, and the unit
dispatches GET. -/
theorem invalid_method_dispatches_get_witness :
    methodFromBytes "GE T" = none ∧ dispatchMethod "GE T" = Method.GET := by
  have h := invalid_method_dispatches_get "GE T" (by decide)
  exact ⟨h.1, h.2.1⟩

end Pepe
